import Mathlib

/-!
Shallow embedding of the `Amm` constant-product pool ledger from `src/lib.rs`.

Machine integers (`u32`) are modelled as `Nat` with explicit wrapping
(`% 2^32`) on addition, subtraction and multiplication, matching the
wrapping semantics of the source's unchecked release-mode arithmetic.
Division by zero panics in Rust in every build mode, so each source `/`
whose divisor can be zero is embedded with an explicit zero test that
yields the distinguished `Res.panic` outcome.
-/

namespace Ramm

/-- `const PRECISION: u32 = 1_000_000;` -/
def PRECISION : Nat := 1000000

/-- Modulus of `u32` arithmetic. -/
def U32 : Nat := 4294967296

/-- Wrapping `u32` addition. -/
def add32 (a b : Nat) : Nat := (a + b) % U32

/-- Wrapping `u32` multiplication. -/
def mul32 (a b : Nat) : Nat := (a * b) % U32

/-- Wrapping `u32` subtraction (for `a b < U32` this is two's-complement wrap). -/
def sub32 (a b : Nat) : Nat := (a + U32 - b % U32) % U32

/-- The `Error` enum of the source. -/
inductive Error
  | InvalidShare
  | InsufficientLiquidity
  | InsufficientAmount
  | NonEquivalentValue
  | SlippageExceeded
  | ThresholdNotReached
  | ZeroAmount
  | ZeroLiquidity
deriving DecidableEq

/-- Outcome of a fallible operation: a value, a typed `Error`, or a Rust
runtime panic (division by zero). -/
inductive Res (α : Type)
  | ok (a : α)
  | err (e : Error)
  | panic
deriving DecidableEq

/-- `type Balances = HashMap<String, u32>;` modelled as an association list. -/
abbrev Balances := List (String × Nat)

/-- `balances.get(k).unwrap_or(&0)`. -/
def bget (m : Balances) (k : String) : Nat :=
  match m with
  | [] => 0
  | (k', v) :: rest => if k' = k then v else bget rest k

/-- `balances.insert(k, v)`. -/
def binsert (m : Balances) (k : String) (v : Nat) : Balances :=
  match m with
  | [] => [(k, v)]
  | (k', v') :: rest =>
    if k' = k then (k, v) :: rest else (k', v') :: binsert rest k v

/-- `balances.entry(k).and_modify(f)` (no insertion when the key is absent). -/
def bmodify (m : Balances) (k : String) (f : Nat → Nat) : Balances :=
  match m with
  | [] => []
  | (k', v') :: rest =>
    if k' = k then (k', f v') :: rest else (k', v') :: bmodify rest k f

/-- `balances.entry(k).and_modify(f).or_insert(v)`. -/
def bmodifyOrInsert (m : Balances) (k : String) (f : Nat → Nat) (v : Nat) : Balances :=
  match m with
  | [] => [(k, v)]
  | (k', v') :: rest =>
    if k' = k then (k', f v') :: rest else (k', v') :: bmodifyOrInsert rest k f v

/-- The `Amm` struct of the source. -/
structure Amm where
  fees : Nat
  total_pool_shares : Nat
  token_a_pool_balance : Nat
  token_b_pool_balance : Nat
  token_a_user_balance : Balances
  token_b_user_balance : Balances
  user_pool_shares : Balances
deriving DecidableEq

/-- `Amm::new(fees)`: fee clamped to 0 when `fees >= 1000`, all other
fields default (zero / empty). -/
def Amm.new (fees : Nat) : Amm :=
  { fees := if fees ≥ 1000 then 0 else fees
    total_pool_shares := 0
    token_a_pool_balance := 0
    token_b_pool_balance := 0
    token_a_user_balance := []
    token_b_user_balance := []
    user_pool_shares := [] }

/-- `is_valid_amount`: `none` stands for `Ok(())`. -/
def is_valid_amount (account_id : String) (balances : Balances) (amount : Nat) :
    Option Error :=
  let account_balance := bget balances account_id
  if amount = 0 then some Error.ZeroAmount
  else if amount > account_balance then some Error.InsufficientAmount
  else none

/-- `get_pool_balance`: the (wrapping) product of the two reserves. -/
def get_pool_balance (s : Amm) : Nat :=
  mul32 s.token_a_pool_balance s.token_b_pool_balance

/-- `is_pool_active`: `none` stands for `Ok(())`. -/
def is_pool_active (s : Amm) : Option Error :=
  if get_pool_balance s = 0 then some Error.ZeroLiquidity else none

/-- `get_free_tokens`: credit both available balances. -/
def get_free_tokens (s : Amm) (account_id : String)
    (token_a_amount token_b_amount : Nat) : Amm :=
  let token_a_balance := bget s.token_a_user_balance account_id
  let token_b_balance := bget s.token_b_user_balance account_id
  { s with
    token_a_user_balance :=
      binsert s.token_a_user_balance account_id (add32 token_a_balance token_a_amount)
    token_b_user_balance :=
      binsert s.token_b_user_balance account_id (add32 token_b_balance token_b_amount) }

/-- `get_account_balance`. -/
def get_account_balance (s : Amm) (account_id : String) : Nat × Nat × Nat :=
  (bget s.token_a_user_balance account_id,
   bget s.token_b_user_balance account_id,
   bget s.user_pool_shares account_id)

/-- `get_pool_info`. -/
def get_pool_info (s : Amm) : Nat × Nat × Nat × Nat :=
  (s.token_a_pool_balance, s.token_b_pool_balance, s.total_pool_shares, s.fees)

/-- The share computation of `deposit` (the part before the `shares == 0`
check): bootstrap branch on `total_pool_shares == 0`, otherwise the two
proportional-share divisions with their equality test. -/
def depositShares (s : Amm) (token_a_amount token_b_amount : Nat) : Res Nat :=
  if s.total_pool_shares = 0 then Res.ok (100 * PRECISION)
  else if s.token_a_pool_balance = 0 then Res.panic
  else if s.token_b_pool_balance = 0 then Res.panic
  else
    let token_a_share := mul32 s.total_pool_shares token_a_amount / s.token_a_pool_balance
    let token_b_share := mul32 s.total_pool_shares token_b_amount / s.token_b_pool_balance
    if token_a_share ≠ token_b_share then Res.err Error.NonEquivalentValue
    else Res.ok token_a_share

/-- `deposit`: validation, share computation, then the atomic commit.
Returns the outcome together with the post-call state (`&mut self`). -/
def deposit (s : Amm) (account_id : String) (token_a_amount token_b_amount : Nat) :
    Res Nat × Amm :=
  match is_valid_amount account_id s.token_a_user_balance token_a_amount with
  | some e => (Res.err e, s)
  | none =>
  match is_valid_amount account_id s.token_b_user_balance token_b_amount with
  | some e => (Res.err e, s)
  | none =>
  match depositShares s token_a_amount token_b_amount with
  | Res.panic => (Res.panic, s)
  | Res.err e => (Res.err e, s)
  | Res.ok shares =>
    if shares = 0 then (Res.err Error.ThresholdNotReached, s)
    else
      let token_a_balance := bget s.token_a_user_balance account_id
      let token_b_balance := bget s.token_b_user_balance account_id
      let s' :=
        { s with
          token_a_user_balance :=
            binsert s.token_a_user_balance account_id (sub32 token_a_balance token_a_amount)
          token_b_user_balance :=
            binsert s.token_b_user_balance account_id (sub32 token_b_balance token_b_amount) }
      let s'' :=
        { s' with
          token_a_pool_balance := add32 s'.token_a_pool_balance token_a_amount
          token_b_pool_balance := add32 s'.token_b_pool_balance token_b_amount
          total_pool_shares := add32 s'.total_pool_shares shares
          user_pool_shares :=
            bmodifyOrInsert s'.user_pool_shares account_id (fun v => add32 v shares) shares }
      (Res.ok shares, s'')

/-- `get_token_a_swap_amount_out` (spot quote). -/
def get_token_a_swap_amount_out (s : Amm) (token_b_amount : Nat) : Res Nat :=
  match is_pool_active s with
  | some e => Res.err e
  | none =>
    if s.token_b_pool_balance = 0 then Res.panic
    else Res.ok (mul32 s.token_a_pool_balance token_b_amount / s.token_b_pool_balance)

/-- `get_token_b_swap_amount_out` (spot quote). -/
def get_token_b_swap_amount_out (s : Amm) (token_a_amount : Nat) : Res Nat :=
  match is_pool_active s with
  | some e => Res.err e
  | none =>
    if s.token_a_pool_balance = 0 then Res.panic
    else Res.ok (mul32 s.token_b_pool_balance token_a_amount / s.token_a_pool_balance)

/-- `get_withdraw_amount`: pro-rata withdrawal quote. -/
def get_withdraw_amount (s : Amm) (share : Nat) : Res (Nat × Nat) :=
  match is_pool_active s with
  | some e => Res.err e
  | none =>
    if share > s.total_pool_shares then Res.err Error.InvalidShare
    else if s.total_pool_shares = 0 then Res.panic
    else
      let token_a_amount := mul32 s.token_a_pool_balance share / s.total_pool_shares
      let token_b_amount := mul32 s.token_b_pool_balance share / s.total_pool_shares
      Res.ok (token_a_amount, token_b_amount)

/-- `withdraw`. Note: the source runs `*val += share` on the account's
`user_pool_shares` entry, i.e. it increases the account's shares. -/
def withdraw (s : Amm) (account_id : String) (share : Nat) :
    Res (Nat × Nat) × Amm :=
  match is_valid_amount account_id s.user_pool_shares share with
  | some e => (Res.err e, s)
  | none =>
  match get_withdraw_amount s share with
  | Res.panic => (Res.panic, s)
  | Res.err e => (Res.err e, s)
  | Res.ok (token_a_amount, token_b_amount) =>
    let s' :=
      { s with
        user_pool_shares :=
          bmodify s.user_pool_shares account_id (fun v => add32 v share) }
    let s'' :=
      { s' with
        total_pool_shares := sub32 s'.total_pool_shares share
        token_a_pool_balance := sub32 s'.token_a_pool_balance token_a_amount
        token_b_pool_balance := sub32 s'.token_b_pool_balance token_b_amount
        token_a_user_balance :=
          bmodify s'.token_a_user_balance account_id (fun v => add32 v token_a_amount)
        token_b_user_balance :=
          bmodify s'.token_b_user_balance account_id (fun v => add32 v token_b_amount) }
    (Res.ok (token_a_amount, token_b_amount), s'')

/-- `get_swap_amount_for_token_b`: fee-aware quote, input token A, output
token B, with the one-unit decrement when the computed new reserve equals
the current reserve. -/
def get_swap_amount_for_token_b (s : Amm) (token_a_amount : Nat) : Res Nat :=
  match is_pool_active s with
  | some e => Res.err e
  | none =>
    let token_a_amount' := mul32 (sub32 1000 s.fees) token_a_amount / 1000
    let total_token_a := add32 s.token_a_pool_balance token_a_amount'
    if total_token_a = 0 then Res.panic
    else
      let total_token_b := get_pool_balance s / total_token_a
      let token_b_amount := sub32 s.token_b_pool_balance total_token_b
      if total_token_b = s.token_b_pool_balance then Res.ok (sub32 token_b_amount 1)
      else Res.ok token_b_amount

/-- `get_swap_amount_for_token_a`: given a token B amount, the token A
input (grossed up by the fee) needed to take out that much token B. -/
def get_swap_amount_for_token_a (s : Amm) (token_b_amount : Nat) : Res Nat :=
  match is_pool_active s with
  | some e => Res.err e
  | none =>
    if token_b_amount > s.token_b_pool_balance then Res.err Error.InsufficientLiquidity
    else
      let total_token_b := sub32 s.token_b_pool_balance token_b_amount
      if total_token_b = 0 then Res.panic
      else
        let total_token_a := get_pool_balance s / total_token_b
        if sub32 1000 s.fees = 0 then Res.panic
        else
          Res.ok (mul32 (sub32 total_token_a s.token_a_pool_balance) 1000 /
            sub32 1000 s.fees)

/-- `swap_token_a_for_token_b`. Note: the source obtains its output from
`get_swap_amount_for_token_a`, passing the token A input where a token B
amount is expected. -/
def swap_token_a_for_token_b (s : Amm) (account_id : String)
    (token_a_amount min_token_b : Nat) : Res Nat × Amm :=
  match is_valid_amount account_id s.token_a_user_balance token_a_amount with
  | some e => (Res.err e, s)
  | none =>
  match get_swap_amount_for_token_a s token_a_amount with
  | Res.panic => (Res.panic, s)
  | Res.err e => (Res.err e, s)
  | Res.ok token_b_amount =>
    if token_b_amount < min_token_b then (Res.err Error.SlippageExceeded, s)
    else
      let s' :=
        { s with
          token_a_user_balance :=
            bmodify s.token_a_user_balance account_id (fun v => sub32 v token_a_amount) }
      let s'' :=
        { s' with
          token_a_pool_balance := add32 s'.token_a_pool_balance token_a_amount
          token_b_pool_balance := sub32 s'.token_b_pool_balance token_b_amount
          token_b_user_balance :=
            bmodify s'.token_b_user_balance account_id (fun v => add32 v token_b_amount) }
      (Res.ok token_b_amount, s'')

/-- `swap_token_b_for_token_a`. -/
def swap_token_b_for_token_a (s : Amm) (account_id : String)
    (token_b_amount min_token_a : Nat) : Res Nat × Amm :=
  match is_valid_amount account_id s.token_b_user_balance token_b_amount with
  | some e => (Res.err e, s)
  | none =>
  match get_swap_amount_for_token_a s token_b_amount with
  | Res.panic => (Res.panic, s)
  | Res.err e => (Res.err e, s)
  | Res.ok token_a_amount =>
    if token_a_amount < min_token_a then (Res.err Error.SlippageExceeded, s)
    else
      let s' :=
        { s with
          token_b_user_balance :=
            bmodify s.token_b_user_balance account_id (fun v => sub32 v token_b_amount) }
      let s'' :=
        { s' with
          token_a_pool_balance := sub32 s'.token_a_pool_balance token_a_amount
          token_b_pool_balance := add32 s'.token_b_pool_balance token_b_amount
          token_a_user_balance :=
            bmodify s'.token_a_user_balance account_id (fun v => add32 v token_a_amount) }
      (Res.ok token_a_amount, s'')

/-- Sum of all recorded account shares, the quantity `total_pool_shares` is
specified to equal. -/
def sumShares (m : Balances) : Nat :=
  match m with
  | [] => 0
  | (_, v) :: rest => v + sumShares rest

/-! Concrete states used in the claim theorems, each built through the
embedded operations themselves (so every one is reachable). -/

/-- Fee 0, seed (100,200), deposit (10,20), then withdraw 20000000 shares. -/
def withdrawScenario : Res (Nat × Nat) × Amm :=
  withdraw (deposit (get_free_tokens (Amm.new 0) "a" 100 200) "a" 10 20).2 "a" 20000000

/-- Fee 100 (10 percent), reserves (50,100), account holds 50 of token A. -/
def swapFeeState : Amm :=
  (deposit (get_free_tokens (Amm.new 100) "a" 100 200) "a" 50 100).2

/-- Fee 0, reserves (10,20), account holds 5 of token A. -/
def smallSwapState : Amm :=
  (deposit (get_free_tokens (Amm.new 0) "a" 15 20) "a" 10 20).2

/-- Fee 100, reserves (50,100), account holds 50 of token A (for the fee
comparison of C3). -/
def feeCmpState : Amm :=
  (deposit (get_free_tokens (Amm.new 100) "a" 100 200) "a" 50 100).2

/-- Fee 0, reserves (50,100), account holds 50 of token A (zero-fee side of
the C3 comparison). -/
def feeCmpZeroState : Amm :=
  (deposit (get_free_tokens (Amm.new 0) "a" 100 200) "a" 50 100).2

/-- Fee 500, reserves (2,3): a trade of 1 has effective input 0. -/
def tinyTradeState : Amm :=
  (deposit (get_free_tokens (Amm.new 500) "a" 2 3) "a" 2 3).2

/-- Fee 900, reserves (10,10), account holds 5 of token B. -/
def highFeeState : Amm :=
  { fees := 900
    total_pool_shares := 100000000
    token_a_pool_balance := 10
    token_b_pool_balance := 10
    token_a_user_balance := []
    token_b_user_balance := [("a", 5)]
    user_pool_shares := [] }

/-- Fee 0, reserves (3,3) after a bootstrap deposit of (3,3); the account
still holds 1 of each token. -/
def truncState : Amm :=
  (deposit (get_free_tokens (Amm.new 0) "a" 4 4) "a" 3 3).2

/-- Fresh fee-0 ledger with account "a" seeded with (100, 200). -/
def seededState : Amm := get_free_tokens (Amm.new 0) "a" 100 200

/-- Fee 0, reserves (10,10) reached by a bootstrap deposit. -/
def evenPoolState : Amm :=
  (deposit (get_free_tokens (Amm.new 0) "a" 10 10) "a" 10 10).2

/-- An (unreachable-by-withdraw but constructible) state with zero total
shares and nonzero leftover reserves, exercising re-bootstrapping. -/
def drainedState : Amm :=
  { fees := 0
    total_pool_shares := 0
    token_a_pool_balance := 7
    token_b_pool_balance := 9
    token_a_user_balance := [("a", 5)]
    token_b_user_balance := [("a", 5)]
    user_pool_shares := [] }

/-! Arithmetic helper lemmas for the wrapped operations. -/

theorem add32_eq {a b : Nat} (h : a + b < U32) : add32 a b = a + b :=
  Nat.mod_eq_of_lt h

theorem mul32_eq {a b : Nat} (h : a * b < U32) : mul32 a b = a * b :=
  Nat.mod_eq_of_lt h

theorem sub32_eq {a b : Nat} (hb : b ≤ a) (ha : a < U32) : sub32 a b = a - b := by
  unfold sub32
  rw [Nat.mod_eq_of_lt (lt_of_le_of_lt hb ha)]
  have h1 : a + U32 - b = a - b + U32 := by omega
  rw [h1, Nat.add_mod_right]
  exact Nat.mod_eq_of_lt (by omega)

theorem sub32_self {a : Nat} (ha : a < U32) : sub32 a a = 0 := by
  rw [sub32_eq (Nat.le_refl a) ha, Nat.sub_self]

theorem U32_pos : 0 < U32 := by decide

/-- C1: in the scenario fee 0, seed (100,200), deposit (10,20) (minting
100000000 shares), a successful `withdraw` of 20000000 shares returns
(2, 4) and decreases `total_pool_shares` to 80000000, but *increases* the
withdrawing account's `shares` field to 120000000, so the invariant
`total_pool_shares = sum of all accounts' shares` is broken: the code
contradicts the specified decrease-by-`share` behaviour. -/
theorem c1_withdraw_increases_account_shares :
    withdrawScenario.1 = Res.ok (2, 4) ∧
    withdrawScenario.2.total_pool_shares = 80000000 ∧
    bget withdrawScenario.2.user_pool_shares "a" = 120000000 ∧
    sumShares withdrawScenario.2.user_pool_shares ≠ withdrawScenario.2.total_pool_shares := by
  decide

/-- C2: on the pre-state with fee 100, reserves (50,100) and an account
holding 50 of token A, a successful `swap_token_a_for_token_b` of 50 with
minimum 0 returns 55, while the fee-aware A-to-B quote
`get_swap_amount_for_token_b` on the same pre-state and input returns 48:
the swap does not return the value of the matching-direction quote
(it routes through `get_swap_amount_for_token_a` instead). -/
theorem c2_swap_disagrees_with_matching_quote :
    (swap_token_a_for_token_b swapFeeState "a" 50 0).1 = Res.ok 55 ∧
    get_swap_amount_for_token_b swapFeeState 50 = Res.ok 48 ∧
    (55 : Nat) ≠ 48 := by
  decide

/-- C3: with fee 0, reserves (10,20) and input 5, a successful
`swap_token_a_for_token_b` returns 3 while the pure constant-product
output `reserve_b - (reserve_a*reserve_b)/(reserve_a + amount_a)` is 7;
and for identical pre-states (reserves (50,100), input 50) the fee-100
swap returns 55, strictly *more* than the 50 returned by the fee-0 swap.
Both halves of the claim fail on the code. -/
theorem c3_zero_fee_and_fee_monotonicity_fail :
    (swap_token_a_for_token_b smallSwapState "a" 5 0).1 = Res.ok 3 ∧
    sub32 smallSwapState.token_b_pool_balance
      (mul32 smallSwapState.token_a_pool_balance smallSwapState.token_b_pool_balance /
        add32 smallSwapState.token_a_pool_balance 5) = 7 ∧
    (3 : Nat) ≠ 7 ∧
    (swap_token_a_for_token_b feeCmpState "a" 50 0).1 = Res.ok 55 ∧
    (swap_token_a_for_token_b feeCmpZeroState "a" 50 0).1 = Res.ok 50 ∧
    ¬ (55 : Nat) < 50 := by
  decide

/-- C6: on the active pool with fee 900, reserves (10,10) and an account
holding 5 of token B, `swap_token_b_for_token_a` of 5 with minimum 0
passes every validation, returns the grossed-up output 100, which strictly
exceeds the token A reserve 10, so the reserve update
`token_a_pool_balance -= 100` underflows and wraps to 4294967206. -/
theorem c6_swap_b_for_a_underflows_reserve_a :
    (swap_token_b_for_token_a highFeeState "a" 5 0).1 = Res.ok 100 ∧
    highFeeState.token_a_pool_balance = 10 ∧
    (100 : Nat) > 10 ∧
    (swap_token_b_for_token_a highFeeState "a" 5 0).2.token_a_pool_balance =
      4294967206 := by
  decide

/-- A passing `is_valid_amount` check means the amount is nonzero and
covered by the account's balance. -/
theorem is_valid_amount_none {acc : String} {m : Balances} {amt : Nat}
    (h : is_valid_amount acc m amt = none) : amt ≠ 0 ∧ amt ≤ bget m acc := by
  simp only [is_valid_amount] at h
  split at h
  · exact absurd h (by simp)
  · split at h
    · exact absurd h (by simp)
    · refine ⟨by assumption, by omega⟩

/-- C4: whenever `deposit`, `withdraw`, `swap_token_a_for_token_b` or
`swap_token_b_for_token_a` returns a typed error, the returned state is
exactly the pre-call state (all validation and quoting precede any
mutation). -/
theorem c4_error_leaves_state_unchanged (s : Amm) (acc : String) (x y m : Nat)
    (e : Error) :
    ((deposit s acc x y).1 = Res.err e → (deposit s acc x y).2 = s) ∧
    ((withdraw s acc x).1 = Res.err e → (withdraw s acc x).2 = s) ∧
    ((swap_token_a_for_token_b s acc x m).1 = Res.err e →
      (swap_token_a_for_token_b s acc x m).2 = s) ∧
    ((swap_token_b_for_token_a s acc x m).1 = Res.err e →
      (swap_token_b_for_token_a s acc x m).2 = s) := by
  refine ⟨?_, ?_, ?_, ?_⟩
  · unfold deposit
    repeat' split
    all_goals intro h
    all_goals first | rfl | (exfalso; simp at h)
  · unfold withdraw
    repeat' split
    all_goals intro h
    all_goals first | rfl | (exfalso; simp at h)
  · unfold swap_token_a_for_token_b
    repeat' split
    all_goals intro h
    all_goals first | rfl | (exfalso; simp at h)
  · unfold swap_token_b_for_token_a
    repeat' split
    all_goals intro h
    all_goals first | rfl | (exfalso; simp at h)

/-- Witness for C4: a zero-amount deposit on a fresh ledger errs and leaves
the state untouched. -/
theorem c4_error_leaves_state_unchanged_witness :
    (deposit (Amm.new 0) "a" 0 1).2 = Amm.new 0 :=
  (c4_error_leaves_state_unchanged (Amm.new 0) "a" 0 1 0 Error.ZeroAmount).1
    (by decide)

/-- C7: for every active pool, calling `get_swap_amount_for_token_a` with
`token_b_amount` equal to the full token B reserve passes the
`InsufficientLiquidity` guard (which rejects only strictly greater
amounts) and reaches the division by zero in
`(reserve_a*reserve_b) / (reserve_b - token_b_amount)`: the call panics. -/
theorem c7_quote_b_for_a_full_reserve_div_by_zero (s : Amm)
    (hactive : is_pool_active s = none)
    (hrb : s.token_b_pool_balance < U32) :
    get_swap_amount_for_token_a s s.token_b_pool_balance = Res.panic := by
  unfold get_swap_amount_for_token_a
  rw [hactive]
  simp [sub32_self hrb]

/-- Witness for C7: on the fee-0 pool with reserves (10,10), the quote at
the full reserve 10 panics. -/
theorem c7_quote_b_for_a_full_reserve_div_by_zero_witness :
    get_swap_amount_for_token_a evenPoolState evenPoolState.token_b_pool_balance =
      Res.panic :=
  c7_quote_b_for_a_full_reserve_div_by_zero evenPoolState (by decide) (by decide)

/-- Counterexample for C5: on the active pool with fee 500 and reserves
(2,3), a trade of 1 has effective input 0, the computed new reserve equals
the current one, and decrementing the naive output 0 by one unit
underflows: the quote returns 4294967295, which exceeds the entire token B
reserve — not a well-defined decremented output amount. -/
theorem c5_decrement_underflows :
    get_swap_amount_for_token_b tinyTradeState 1 = Res.ok 4294967295 ∧
    tinyTradeState.token_b_pool_balance = 3 ∧
    ¬ (4294967295 : Nat) ≤ 3 := by
  decide

theorem sub32_zero_one : sub32 0 1 = U32 - 1 := by decide

/-- C5 (amended): for every active pool, whenever the computed new token B
reserve equals the current one, the naive output is zero and the one-unit
decrement underflows the 32-bit subtraction: the quote returns the wrapped
value `2^32 - 1` (a panic under checked arithmetic), never a zero-output
swap. -/
theorem c5_equal_reserve_decrement_wraps (s : Amm) (amt : Nat)
    (hactive : is_pool_active s = none)
    (hrb : s.token_b_pool_balance < U32)
    (heq : get_pool_balance s /
        add32 s.token_a_pool_balance (mul32 (sub32 1000 s.fees) amt / 1000) =
      s.token_b_pool_balance) :
    get_swap_amount_for_token_b s amt = Res.ok (U32 - 1) := by
  have hne : get_pool_balance s ≠ 0 := by
    unfold is_pool_active at hactive
    intro h
    simp [h] at hactive
  have hrb0 : s.token_b_pool_balance ≠ 0 := by
    intro h
    apply hne
    unfold get_pool_balance mul32
    rw [h, Nat.mul_zero, Nat.zero_mod]
  have hta : add32 s.token_a_pool_balance (mul32 (sub32 1000 s.fees) amt / 1000) ≠ 0 := by
    intro h
    rw [h, Nat.div_zero] at heq
    exact hrb0 heq.symm
  unfold get_swap_amount_for_token_b
  rw [hactive]
  simp [hta, heq, sub32_self hrb, sub32_zero_one]

/-- Witness for C5 (amended): on the fee-500 pool with reserves (2,3), the
quote for input 1 returns `2^32 - 1`. -/
theorem c5_equal_reserve_decrement_wraps_witness :
    get_swap_amount_for_token_b tinyTradeState 1 = Res.ok (U32 - 1) :=
  c5_equal_reserve_decrement_wraps tinyTradeState 1 (by decide) (by decide)
    (by decide)

/-- C9: for every empty pool (zero total shares and zero reserves) and
every deposit passing validation, the first deposit mints exactly
`100 * PRECISION` shares independent of the deposited amounts, and the
reserves afterwards equal exactly the deposited amounts. -/
theorem c9_first_deposit_bootstrap (s : Amm) (acc : String) (a b : Nat)
    (hT : s.total_pool_shares = 0)
    (hra : s.token_a_pool_balance = 0) (hrb : s.token_b_pool_balance = 0)
    (ha0 : a ≠ 0) (hab : a ≤ bget s.token_a_user_balance acc)
    (hb0 : b ≠ 0) (hbb : b ≤ bget s.token_b_user_balance acc)
    (haU : a < U32) (hbU : b < U32) :
    (deposit s acc a b).1 = Res.ok (100 * PRECISION) ∧
    (deposit s acc a b).2.token_a_pool_balance = a ∧
    (deposit s acc a b).2.token_b_pool_balance = b := by
  have hna : ¬ bget s.token_a_user_balance acc < a := Nat.not_lt.mpr hab
  have hnb : ¬ bget s.token_b_user_balance acc < b := Nat.not_lt.mpr hbb
  have h1 : is_valid_amount acc s.token_a_user_balance a = none := by
    simp [is_valid_amount, ha0, hna]
  have h2 : is_valid_amount acc s.token_b_user_balance b = none := by
    simp [is_valid_amount, hb0, hnb]
  have h3 : depositShares s a b = Res.ok (100 * PRECISION) := by
    simp [depositShares, hT]
  have h4 : (100 : Nat) * PRECISION ≠ 0 := by decide
  simp [deposit, h1, h2, h3, h4, hra, hrb, add32_eq, haU, hbU, PRECISION]

/-- Witness for C9: the scenario seed (100,200) then deposit (10,20) mints
100000000 shares and leaves reserves (10,20). -/
theorem c9_first_deposit_bootstrap_witness :
    (deposit seededState "a" 10 20).1 = Res.ok (100 * PRECISION) ∧
    (deposit seededState "a" 10 20).2.token_a_pool_balance = 10 ∧
    (deposit seededState "a" 10 20).2.token_b_pool_balance = 20 :=
  c9_first_deposit_bootstrap seededState "a" 10 20 (by decide) (by decide)
    (by decide) (by decide) (by decide) (by decide) (by decide) (by decide)
    (by decide)

/-- C10: the bootstrap branch of `deposit` keys solely on
`total_pool_shares = 0`: for every state with zero total shares (reserves
arbitrary) and every deposit passing balance validation, the deposit mints
exactly `100 * PRECISION` shares regardless of the deposited amounts. -/
theorem c10_rebootstrap_mints_fixed_shares (s : Amm) (acc : String) (a b : Nat)
    (hT : s.total_pool_shares = 0)
    (ha0 : a ≠ 0) (hab : a ≤ bget s.token_a_user_balance acc)
    (hb0 : b ≠ 0) (hbb : b ≤ bget s.token_b_user_balance acc) :
    (deposit s acc a b).1 = Res.ok (100 * PRECISION) := by
  have hna : ¬ bget s.token_a_user_balance acc < a := Nat.not_lt.mpr hab
  have hnb : ¬ bget s.token_b_user_balance acc < b := Nat.not_lt.mpr hbb
  have h1 : is_valid_amount acc s.token_a_user_balance a = none := by
    simp [is_valid_amount, ha0, hna]
  have h2 : is_valid_amount acc s.token_b_user_balance b = none := by
    simp [is_valid_amount, hb0, hnb]
  have h3 : depositShares s a b = Res.ok (100 * PRECISION) := by
    simp [depositShares, hT]
  have h4 : (100 : Nat) * PRECISION ≠ 0 := by decide
  simp [deposit, h1, h2, h3, h4]

/-- Witness for C10: depositing (5,5) into a zero-share state with leftover
reserves (7,9) still mints the fixed bootstrap amount. -/
theorem c10_rebootstrap_mints_fixed_shares_witness :
    (deposit drainedState "a" 5 5).1 = Res.ok (100 * PRECISION) :=
  c10_rebootstrap_mints_fixed_shares drainedState "a" 5 5 (by decide)
    (by decide) (by decide) (by decide) (by decide)

/-- Counterexample for C8: on the pool with reserves (3,3) and 100000000
total shares, the deposit (1,1) succeeds minting 33333333 shares, but
`get_withdraw_amount` of those shares on the resulting state returns
(0,0), not the deposited (1,1): the round trip is not exact under integer
truncation. -/
theorem c8_roundtrip_not_exact :
    (deposit truncState "a" 1 1).1 = Res.ok 33333333 ∧
    get_withdraw_amount (deposit truncState "a" 1 1).2 33333333 =
      Res.ok (0, 0) ∧
    ((0 : Nat), (0 : Nat)) ≠ ((1 : Nat), (1 : Nat)) := by
  decide

/-- After a deposit changing the pool to reserves `(ra + a, rb + b)` and
total shares `T + sh`, the withdrawal quote for `sh` succeeds and each
component is bounded by the corresponding deposited amount (overflow-free
side conditions). Key facts `ra * sh ≤ T * a` and `rb * sh ≤ T * b` come
from the share computation of `deposit`. -/
theorem quote_after_deposit_le (ra rb T a b sh : Nat) (s' : Amm)
    (hra' : s'.token_a_pool_balance = add32 ra a)
    (hrb' : s'.token_b_pool_balance = add32 rb b)
    (hT' : s'.total_pool_shares = add32 T sh)
    (ha0 : a ≠ 0) (hb0 : b ≠ 0) (hsh0 : sh ≠ 0)
    (hP : (ra + a) * (rb + b) < U32)
    (hA : (ra + a) * sh < U32) (hB : (rb + b) * sh < U32)
    (hTs : T + sh < U32)
    (hka : ra * sh ≤ T * a) (hkb : rb * sh ≤ T * b) :
    get_withdraw_amount s' sh =
      Res.ok ((ra + a) * sh / (T + sh), (rb + b) * sh / (T + sh)) ∧
    (ra + a) * sh / (T + sh) ≤ a ∧ (rb + b) * sh / (T + sh) ≤ b := by
  have hap : 0 < ra + a := by omega
  have hbp : 0 < rb + b := by omega
  have hraU : ra + a < U32 :=
    lt_of_le_of_lt (Nat.le_mul_of_pos_right _ hbp) hP
  have hrbU : rb + b < U32 :=
    lt_of_le_of_lt (Nat.le_mul_of_pos_left _ hap) hP
  have h1 : s'.token_a_pool_balance = ra + a := by rw [hra', add32_eq hraU]
  have h2 : s'.token_b_pool_balance = rb + b := by rw [hrb', add32_eq hrbU]
  have h3 : s'.total_pool_shares = T + sh := by rw [hT', add32_eq hTs]
  have hactive : is_pool_active s' = none := by
    unfold is_pool_active get_pool_balance
    rw [h1, h2, mul32_eq hP]
    have hne : (ra + a) * (rb + b) ≠ 0 := Nat.mul_ne_zero (by omega) (by omega)
    simp [hne]
  have hwa_le : (ra + a) * sh / (T + sh) ≤ a := by
    have hle : (ra + a) * sh ≤ a * (T + sh) := by
      have e1 : (ra + a) * sh = ra * sh + a * sh := by ring
      have e2 : a * (T + sh) = T * a + a * sh := by ring
      rw [e1, e2]
      exact Nat.add_le_add_right hka _
    calc (ra + a) * sh / (T + sh) ≤ a * (T + sh) / (T + sh) :=
          Nat.div_le_div_right hle
      _ = a := Nat.mul_div_cancel _ (by omega)
  have hwb_le : (rb + b) * sh / (T + sh) ≤ b := by
    have hle : (rb + b) * sh ≤ b * (T + sh) := by
      have e1 : (rb + b) * sh = rb * sh + b * sh := by ring
      have e2 : b * (T + sh) = T * b + b * sh := by ring
      rw [e1, e2]
      exact Nat.add_le_add_right hkb _
    calc (rb + b) * sh / (T + sh) ≤ b * (T + sh) / (T + sh) :=
          Nat.div_le_div_right hle
      _ = b := Nat.mul_div_cancel _ (by omega)
  refine ⟨?_, hwa_le, hwb_le⟩
  unfold get_withdraw_amount
  rw [hactive]
  have hgt : ¬ sh > T + sh := by omega
  have hT0 : ¬ (T + sh = 0) := by omega
  simp [h1, h2, h3, hgt, hT0, mul32_eq hA, mul32_eq hB]

/-- C8 (amended): for every pool state in which zero total shares implies
zero reserves, every successful `deposit(acc, a, b)` minting `sh` shares,
and overflow-free arithmetic, the withdrawal quote for `sh` on the
post-deposit state succeeds, and each returned component is at most the
corresponding deposited amount (integer truncation can make it strictly
less, so the round trip is bounded, not exact). -/
theorem c8_roundtrip_at_most_deposited (s : Amm) (acc : String)
    (a b sh : Nat) (s' : Amm)
    (hz : s.total_pool_shares = 0 →
      s.token_a_pool_balance = 0 ∧ s.token_b_pool_balance = 0)
    (hdep : deposit s acc a b = (Res.ok sh, s'))
    (hP : (s.token_a_pool_balance + a) * (s.token_b_pool_balance + b) < U32)
    (hA : (s.token_a_pool_balance + a) * sh < U32)
    (hB : (s.token_b_pool_balance + b) * sh < U32)
    (hTs : s.total_pool_shares + sh < U32)
    (hTa : s.total_pool_shares * a < U32)
    (hTb : s.total_pool_shares * b < U32) :
    get_withdraw_amount s' sh =
      Res.ok ((s.token_a_pool_balance + a) * sh / (s.total_pool_shares + sh),
              (s.token_b_pool_balance + b) * sh / (s.total_pool_shares + sh)) ∧
    (s.token_a_pool_balance + a) * sh / (s.total_pool_shares + sh) ≤ a ∧
    (s.token_b_pool_balance + b) * sh / (s.total_pool_shares + sh) ≤ b := by
  unfold deposit at hdep
  split at hdep
  · exact absurd hdep (by simp)
  next hva =>
  split at hdep
  · exact absurd hdep (by simp)
  next hvb =>
  split at hdep
  · exact absurd hdep (by simp)
  · exact absurd hdep (by simp)
  next shares hds =>
  split at hdep
  · exact absurd hdep (by simp)
  next hsh0 =>
  simp only [Prod.mk.injEq, Res.ok.injEq] at hdep
  obtain ⟨rfl, rfl⟩ := hdep
  obtain ⟨ha0, hab⟩ := is_valid_amount_none hva
  obtain ⟨hb0, hbb⟩ := is_valid_amount_none hvb
  have hkey : s.token_a_pool_balance * shares ≤ s.total_pool_shares * a ∧
      s.token_b_pool_balance * shares ≤ s.total_pool_shares * b := by
    unfold depositShares at hds
    split at hds
    next hT0 =>
      obtain ⟨hra0, hrb0⟩ := hz hT0
      rw [hra0, hrb0]
      simp
    next hT0 =>
      split at hds
      · exact absurd hds (by simp)
      next hraNZ =>
      split at hds
      · exact absurd hds (by simp)
      next hrbNZ =>
      simp only [ne_eq] at hds
      split at hds
      · exact absurd hds (by simp)
      next hne =>
      push_neg at hne
      simp only [Res.ok.injEq] at hds
      constructor
      · rw [← hds, mul32_eq hTa]
        calc s.token_a_pool_balance *
              (s.total_pool_shares * a / s.token_a_pool_balance)
            = (s.total_pool_shares * a / s.token_a_pool_balance) *
                s.token_a_pool_balance := by ring
          _ ≤ s.total_pool_shares * a := Nat.div_mul_le_self _ _
      · rw [← hds, hne, mul32_eq hTb]
        calc s.token_b_pool_balance *
              (s.total_pool_shares * b / s.token_b_pool_balance)
            = (s.total_pool_shares * b / s.token_b_pool_balance) *
                s.token_b_pool_balance := by ring
          _ ≤ s.total_pool_shares * b := Nat.div_mul_le_self _ _
  exact quote_after_deposit_le s.token_a_pool_balance s.token_b_pool_balance
    s.total_pool_shares a b shares _ rfl rfl rfl ha0 hb0 hsh0 hP hA hB hTs
    hkey.1 hkey.2

/-- Witness for C8 (amended): after the bootstrap deposit (10,20) on the
seeded ledger, the withdrawal quote for the minted 100000000 shares
returns amounts bounded by (10,20). -/
theorem c8_roundtrip_at_most_deposited_witness :
    get_withdraw_amount (deposit seededState "a" 10 20).2 100000000 =
      Res.ok ((seededState.token_a_pool_balance + 10) * 100000000 /
                (seededState.total_pool_shares + 100000000),
              (seededState.token_b_pool_balance + 20) * 100000000 /
                (seededState.total_pool_shares + 100000000)) ∧
    (seededState.token_a_pool_balance + 10) * 100000000 /
      (seededState.total_pool_shares + 100000000) ≤ 10 ∧
    (seededState.token_b_pool_balance + 20) * 100000000 /
      (seededState.total_pool_shares + 100000000) ≤ 20 :=
  c8_roundtrip_at_most_deposited seededState "a" 10 20 100000000
    (deposit seededState "a" 10 20).2 (by decide) (by decide) (by decide)
    (by decide) (by decide) (by decide) (by decide) (by decide)

end Ramm
